import Mathlib

/-!
Shallow embedding of the video streaming route `GET /api/videos/stream/:id`
from `backend/routes/videos.js`.

The handler:
  1. looks up the video record by id (404 on miss),
  2. checks the requester is enrolled in the video's course or is an admin
     (403 otherwise),
  3. checks the backing file exists on disk (404 otherwise),
  4. with a `Range` header: strips the first occurrence of `bytes=`, splits
     on `-`, applies JavaScript `parseInt` to the pieces, and hands the
     resulting `start`/`end` to `fs.createReadStream`; on success it writes
     a 206 response with unvalidated, unclamped headers; if
     `createReadStream` throws (non-integer, negative, or `start > end`
     options) the surrounding `try` yields a 500 JSON error,
  5. without a `Range` header: writes a 200 response with the whole file,
  6. after a successful `writeHead`, fires an un-awaited `$inc: {views: 1}`.

Bytes are modelled as `Nat`, file contents as `List Nat`, the filesystem as
a partial map from paths to contents (`fs.existsSync` = membership,
`fs.statSync().size` = length, `fs.createReadStream` with `{start, end}` =
the slice semantics of Node, which reads through `min end (size - 1)` and
yields nothing when `start ≥ size`).
-/

/-- Numeric value of a list of decimal digit characters (most significant
first), as accumulated by repeated `*10 + digit`. -/
def digitsToNat (l : List Char) : Nat :=
  l.foldl (fun a c => a * 10 + (c.toNat - 48)) 0

/-- Maximal leading run of decimal digits, or `none` when there is none
(JavaScript `parseInt` returns `NaN` in that case). -/
def leadingDigits (l : List Char) : Option Nat :=
  let d := l.takeWhile (fun c => c.isDigit)
  if d = [] then none else some (digitsToNat d)

/-- JavaScript `parseInt(s, 10)`: skip leading whitespace, read an optional
sign, then the maximal run of decimal digits; `none` models `NaN`. -/
def jsParseInt (l : List Char) : Option Int :=
  match l.dropWhile (fun c => c.isWhitespace) with
  | '-' :: rest => (leadingDigits rest).map (fun n => -(n : Int))
  | '+' :: rest => (leadingDigits rest).map (fun n => (n : Int))
  | rest => (leadingDigits rest).map (fun n => (n : Int))

/-- `String.replace(/pat/, "")` for a literal pattern: remove the first
occurrence of `pat`, leave the rest untouched. -/
def removeFirst (l pat : List Char) : List Char :=
  match l with
  | [] => []
  | c :: rest =>
    if pat.isPrefixOf (c :: rest) then (c :: rest).drop pat.length
    else c :: removeFirst rest pat

/-- JavaScript `s.split("-")`: the `-` separators are dropped, empty pieces
are kept (`"".split("-") = [""]`, `"5-".split("-") = ["5", ""]`). -/
def splitDash : List Char → List (List Char)
  | [] => [[]]
  | c :: rest =>
    if c = '-' then [] :: splitDash rest
    else
      match splitDash rest with
      | [] => [[c]]
      | h :: t => (c :: h) :: t

/-- `range.replace(/bytes=/, "").split("-")` from the handler. -/
def rangeParts (range : String) : List (List Char) :=
  splitDash (removeFirst range.data ("bytes=".data))

/-- `parseInt(parts[0], 10)`; `parts[0]` on an empty split result is the
empty string. -/
def startOpt (parts : List (List Char)) : Option Int :=
  jsParseInt (parts.headD [])

/-- `parts[1] ? parseInt(parts[1], 10) : fileSize - 1`: `parts[1]` is falsy
when it is absent or the empty string. -/
def endOpt (parts : List (List Char)) (fileSize : Int) : Option Int :=
  match parts with
  | _ :: p :: _ => if p = [] then some (fileSize - 1) else jsParseInt p
  | _ => some (fileSize - 1)

/-- Bytes delivered by `fs.createReadStream(path, {start, end})` once the
options validated: indices `start` through `end` inclusive, truncated at
end of file, empty when `start` is at or past end of file. -/
def streamBytes (content : List Nat) (s e : Int) : List Nat :=
  (content.drop s.toNat).take (e.toNat - s.toNat + 1)

/-- A video document as used by the route: its backing path, its declared
MIME type (empty string models a missing/empty value, which is falsy in
JavaScript), and the id strings of the students enrolled in its course. -/
structure VideoRec where
  filePath : String
  mimeType : String
  enrolledStudents : List String
  deriving Repr, DecidableEq

/-- The authenticated requester: id string and role. -/
structure UserRec where
  id : String
  role : String
  deriving Repr, DecidableEq

/-- The response as observed by the client: status code, the headers the
handler may set, and the file bytes streamed as the body (error responses
carry a JSON message but stream no file bytes, so their `body` is `[]`). -/
structure StreamResponse where
  status : Nat
  contentRange : Option String
  acceptRanges : Option String
  contentLength : Option Int
  contentType : Option String
  body : List Nat
  deriving Repr, DecidableEq

/-- 404 JSON error response: no file bytes. -/
def notFoundResp : StreamResponse :=
  { status := 404, contentRange := none, acceptRanges := none,
    contentLength := none, contentType := none, body := [] }

/-- 403 JSON error response: no file bytes. -/
def forbiddenResp : StreamResponse :=
  { status := 403, contentRange := none, acceptRanges := none,
    contentLength := none, contentType := none, body := [] }

/-- 500 JSON error response produced by the route's `catch` block when
`fs.createReadStream` throws on invalid `{start, end}` options. -/
def serverErrorResp : StreamResponse :=
  { status := 500, contentRange := none, acceptRanges := none,
    contentLength := none, contentType := none, body := [] }

/-- `video.mimeType || 'video/mp4'`. -/
def contentTypeOf (mimeType : String) : String :=
  if mimeType = "" then "video/mp4" else mimeType

/-- The `if (range)` branch of the handler: parse `start` and `end`,
validate them exactly as `fs.createReadStream` does (integers, `≥ 0`,
`start ≤ end`; a thrown error becomes a 500 via the route's `catch`), and
otherwise write the 206 head computed from the raw parsed values — the
route neither rejects `start ≥ fileSize` nor clamps `end`. -/
def rangeBranch (content : List Nat) (mimeType : String) (range : String) :
    StreamResponse × Nat :=
  match startOpt (rangeParts range),
        endOpt (rangeParts range) (content.length : Int) with
  | some s, some e =>
    if 0 ≤ s ∧ 0 ≤ e ∧ s ≤ e then
      ({ status := 206,
         contentRange :=
           some ("bytes " ++ toString s ++ "-" ++ toString e ++ "/" ++
             toString (content.length : Int)),
         acceptRanges := some "bytes",
         contentLength := some (e - s + 1),
         contentType := some (contentTypeOf mimeType),
         body := streamBytes content s e }, 1)
    else (serverErrorResp, 0)
  | none, _ => (serverErrorResp, 0)
  | some _, none => (serverErrorResp, 0)

/-- The `else` (no `Range` header) branch: 200 with the whole file. -/
def fullBranch (content : List Nat) (mimeType : String) :
    StreamResponse × Nat :=
  ({ status := 200, contentRange := none, acceptRanges := none,
     contentLength := some (content.length : Int),
     contentType := some (contentTypeOf mimeType),
     body := content }, 1)

/-- The whole `GET /stream/:id` handler. Arguments: the result of
`Video.findById` (with its populated course), the authenticated user, the
filesystem, and the optional `Range` header. Returns the response paired
with the number of view-counter increments dispatched (the `$inc` at the
end of the `try` block runs exactly when a `writeHead` succeeded). -/
def handleStream (lookup : Option VideoRec) (user : UserRec)
    (fsys : String → Option (List Nat)) (range : Option String) :
    StreamResponse × Nat :=
  match lookup with
  | none => (notFoundResp, 0)
  | some video =>
    if ¬ user.id ∈ video.enrolledStudents ∧ ¬ user.role = "admin" then
      (forbiddenResp, 0)
    else
      match fsys video.filePath with
      | none => (notFoundResp, 0)
      | some content =>
        match range with
        | some r => rangeBranch content video.mimeType r
        | none => fullBranch content video.mimeType

/-- `coversFrom s L rs` holds when the ranges in `rs`, taken in order,
exactly tile the byte interval `[s, L-1]`: the first starts at `s`, each
range is nonempty and in bounds, and consecutive ranges are adjacent. -/
def coversFrom : Nat → Nat → List (Nat × Nat) → Bool
  | s, L, [] => s == L
  | s, L, (a, b) :: rs =>
    (a == s) && decide (s ≤ b) && decide (b + 1 ≤ L) && coversFrom (b + 1) L rs

-- Concrete fixtures used by witnesses and counterexamples.

/-- A four-byte test file at path `v.mp4`. -/
def fsFour : String → Option (List Nat) :=
  fun p => if p = "v.mp4" then some [10, 20, 30, 40] else none

/-- A 100-byte test file at path `v.mp4` (bytes 0..99). -/
def fsHundred : String → Option (List Nat) :=
  fun p => if p = "v.mp4" then some (List.range 100) else none

/-- An empty test file at path `v.mp4`. -/
def fsEmpty : String → Option (List Nat) :=
  fun p => if p = "v.mp4" then some [] else none

/-- A filesystem with no files at all. -/
def fsNone : String → Option (List Nat) :=
  fun _ => none

/-- A video at `v.mp4` with MIME type `video/webm`, course with one
enrolled student `u1`. -/
def vidTest : VideoRec :=
  { filePath := "v.mp4", mimeType := "video/webm",
    enrolledStudents := ["u1"] }

/-- A video at `v.mp4` with an empty MIME type. -/
def vidNoMime : VideoRec :=
  { filePath := "v.mp4", mimeType := "", enrolledStudents := ["u1"] }

/-- The enrolled student `u1`. -/
def userTest : UserRec := { id := "u1", role := "student" }

/-- A student who is not enrolled. -/
def userOther : UserRec := { id := "u2", role := "student" }

example : (handleStream (some vidTest) userTest fsFour (some "bytes=1-2")).1.status = 206 := by decide

example : (handleStream (some vidTest) userTest fsFour (some "bytes=1-2")).1.body = [20, 30] := by decide

example : (handleStream (some vidTest) userTest fsFour (some "bytes=1-2")).1.contentRange = some "bytes 1-2/4" := by decide

example : (handleStream (some vidTest) userTest fsFour (some "bytes=abc-2")).1.status = 500 := by decide

example : (handleStream (some vidTest) userTest fsFour (some "bytes=4-9")).1.status = 206 := by decide

example : (handleStream (some vidTest) userTest fsFour (some "bytes=4-9")).1.body = [] := by decide

example : (handleStream (some vidTest) userTest fsFour none).1.status = 200 := by decide

example : (handleStream (some vidTest) userOther fsFour none).1.status = 403 := by decide

example : (handleStream (some vidTest) userTest fsNone none).1.status = 404 := by decide

example : (handleStream (some vidTest) userTest fsEmpty (some "bytes=0-")).1.status = 500 := by decide

example : (handleStream (some vidTest) userTest fsEmpty (some "bytes=0-0")).1.status = 206 := by decide

example : coversFrom 0 4 [(0, 1), (2, 3)] = true := by decide

-- Reduction lemmas for the handler.

/-- When the video resolves, the caller is authorized, and the file is on
disk, the handler reduces to the range branch. -/
theorem handleStream_found_some (v : VideoRec) (u : UserRec)
    (fsys : String → Option (List Nat)) (content : List Nat) (r : String)
    (hauth : u.id ∈ v.enrolledStudents ∨ u.role = "admin")
    (hfs : fsys v.filePath = some content) :
    handleStream (some v) u fsys (some r) = rangeBranch content v.mimeType r := by
  have hc : ¬ (¬ u.id ∈ v.enrolledStudents ∧ ¬ u.role = "admin") := by
    intro h
    rcases hauth with h1 | h1
    · exact h.1 h1
    · exact h.2 h1
  simp only [handleStream, hfs, if_neg hc]

/-- When the video resolves, the caller is authorized, and the file is on
disk, the handler without a `Range` header reduces to the full branch. -/
theorem handleStream_found_none (v : VideoRec) (u : UserRec)
    (fsys : String → Option (List Nat)) (content : List Nat)
    (hauth : u.id ∈ v.enrolledStudents ∨ u.role = "admin")
    (hfs : fsys v.filePath = some content) :
    handleStream (some v) u fsys none = fullBranch content v.mimeType := by
  have hc : ¬ (¬ u.id ∈ v.enrolledStudents ∧ ¬ u.role = "admin") := by
    intro h
    rcases hauth with h1 | h1
    · exact h.1 h1
    · exact h.2 h1
  simp only [handleStream, hfs, if_neg hc]

/-- When both parsed values are integers accepted by `createReadStream`,
the range branch produces the 206 response with unvalidated headers. -/
theorem rangeBranch_valid (content : List Nat) (m r : String) (s e : Int)
    (hS : startOpt (rangeParts r) = some s)
    (hE : endOpt (rangeParts r) (content.length : Int) = some e)
    (h0 : 0 ≤ s) (hse : s ≤ e) :
    rangeBranch content m r =
      ({ status := 206,
         contentRange :=
           some ("bytes " ++ toString s ++ "-" ++ toString e ++ "/" ++
             toString (content.length : Int)),
         acceptRanges := some "bytes",
         contentLength := some (e - s + 1),
         contentType := some (contentTypeOf m),
         body := streamBytes content s e }, 1) := by
  simp only [rangeBranch, hS, hE]
  rw [if_pos ⟨h0, le_trans h0 hse, hse⟩]

/-- When `createReadStream` would reject the options (a `NaN` from
`parseInt`, a negative bound, or `start > end`), the route's `catch`
produces the 500 error response and no view increment. -/
theorem rangeBranch_invalid (content : List Nat) (m r : String)
    (h : startOpt (rangeParts r) = none ∨
         endOpt (rangeParts r) (content.length : Int) = none ∨
         ∃ s e, startOpt (rangeParts r) = some s ∧
           endOpt (rangeParts r) (content.length : Int) = some e ∧
           ¬ (0 ≤ s ∧ 0 ≤ e ∧ s ≤ e)) :
    rangeBranch content m r = (serverErrorResp, 0) := by
  rcases hS : startOpt (rangeParts r) with _ | s
  · rcases hE : endOpt (rangeParts r) (content.length : Int) with _ | e <;>
      simp only [rangeBranch, hS, hE]
  · rcases hE : endOpt (rangeParts r) (content.length : Int) with _ | e
    · simp only [rangeBranch, hS, hE]
    · rcases h with h | h | ⟨s', e', hS', hE', hv⟩
      · exact absurd hS (h ▸ fun hx => by simp at hx)
      · rw [hE] at h
        exact absurd h (by simp)
      · rw [hS] at hS'
        rw [hE] at hE'
        injection hS' with hs1
        injection hE' with he1
        subst hs1
        subst he1
        simp only [rangeBranch, hS, hE]
        rw [if_neg hv]

/-- Every run of the handler ends in one of exactly five outcomes: a 404,
403, or 500 error with no increment, or a 200 or 206 success with exactly
one view-counter increment. -/
theorem handleStream_cases (lookup : Option VideoRec) (u : UserRec)
    (fsys : String → Option (List Nat)) (range : Option String) :
    handleStream lookup u fsys range = (notFoundResp, 0) ∨
    handleStream lookup u fsys range = (forbiddenResp, 0) ∨
    handleStream lookup u fsys range = (serverErrorResp, 0) ∨
    ((handleStream lookup u fsys range).1.status = 200 ∧
      (handleStream lookup u fsys range).2 = 1) ∨
    ((handleStream lookup u fsys range).1.status = 206 ∧
      (handleStream lookup u fsys range).2 = 1) := by
  rcases lookup with _ | v
  · exact Or.inl rfl
  · by_cases hc : ¬ u.id ∈ v.enrolledStudents ∧ ¬ u.role = "admin"
    · refine Or.inr (Or.inl ?_)
      simp only [handleStream]
      rw [if_pos hc]
    · have hauth : u.id ∈ v.enrolledStudents ∨ u.role = "admin" := by tauto
      rcases hf : fsys v.filePath with _ | content
      · refine Or.inl ?_
        simp only [handleStream, hf]
        rw [if_neg hc]
      · rcases range with _ | r
        · rw [handleStream_found_none v u fsys content hauth hf]
          exact Or.inr (Or.inr (Or.inr (Or.inl ⟨rfl, rfl⟩)))
        · rw [handleStream_found_some v u fsys content r hauth hf]
          rcases hS : startOpt (rangeParts r) with _ | s
          · exact Or.inr (Or.inr (Or.inl (rangeBranch_invalid _ _ _ (Or.inl hS))))
          · rcases hE : endOpt (rangeParts r) (content.length : Int) with _ | e
            · exact Or.inr (Or.inr (Or.inl
                (rangeBranch_invalid _ _ _ (Or.inr (Or.inl hE)))))
            · by_cases hv : 0 ≤ s ∧ 0 ≤ e ∧ s ≤ e
              · refine Or.inr (Or.inr (Or.inr (Or.inr ?_)))
                rw [rangeBranch_valid content v.mimeType r s e hS hE hv.1 hv.2.2]
                exact ⟨rfl, rfl⟩
              · exact Or.inr (Or.inr (Or.inl (rangeBranch_invalid _ _ _
                  (Or.inr (Or.inr ⟨s, e, hS, hE, hv⟩)))))

/-- C3: a stream request whose `Range` header parses to an in-bounds range
`0 ≤ start ≤ end ≤ length - 1` (with `end` defaulting to `length - 1` when
omitted, by definition of `endOpt`) yields 206 with headers
`Content-Range: bytes <start>-<end>/<length>`, `Accept-Ranges: bytes`,
`Content-Length: end - start + 1`, `Content-Type: mimeType`, and streams
exactly the bytes in `[start, end]`; `start = end` gives chunk size 1. -/
theorem c3_inbounds_206 (v : VideoRec) (u : UserRec)
    (fsys : String → Option (List Nat)) (content : List Nat) (r : String)
    (s e : Int)
    (hauth : u.id ∈ v.enrolledStudents ∨ u.role = "admin")
    (hfs : fsys v.filePath = some content)
    (hmt : ¬ v.mimeType = "")
    (hS : startOpt (rangeParts r) = some s)
    (hE : endOpt (rangeParts r) (content.length : Int) = some e)
    (h0 : 0 ≤ s) (hse : s ≤ e) (heL : e ≤ (content.length : Int) - 1) :
    (handleStream (some v) u fsys (some r)).1.status = 206 ∧
    (handleStream (some v) u fsys (some r)).1.contentRange =
      some ("bytes " ++ toString s ++ "-" ++ toString e ++ "/" ++
        toString (content.length : Int)) ∧
    (handleStream (some v) u fsys (some r)).1.acceptRanges = some "bytes" ∧
    (handleStream (some v) u fsys (some r)).1.contentLength =
      some (e - s + 1) ∧
    (handleStream (some v) u fsys (some r)).1.contentType =
      some v.mimeType ∧
    (handleStream (some v) u fsys (some r)).1.body =
      (content.drop s.toNat).take (e.toNat - s.toNat + 1) ∧
    ((handleStream (some v) u fsys (some r)).1.body.length : Int) =
      e - s + 1 ∧
    (s = e →
      (handleStream (some v) u fsys (some r)).1.contentLength = some 1) := by
  rw [handleStream_found_some v u fsys content r hauth hfs,
    rangeBranch_valid content v.mimeType r s e hS hE h0 hse]
  refine ⟨rfl, rfl, rfl, rfl, ?_, rfl, ?_, ?_⟩
  · simp [contentTypeOf, hmt]
  · show ((streamBytes content s e).length : Int) = e - s + 1
    simp only [streamBytes, List.length_take, List.length_drop]
    omega
  · intro h
    subst h
    simp

/-- C3 witness: the theorem applied to a four-byte file and header
`bytes=1-2`. -/
theorem c3_inbounds_206_witness :
    (handleStream (some vidTest) userTest fsFour (some "bytes=1-2")).1.status
      = 206 ∧
    (handleStream (some vidTest) userTest fsFour
      (some "bytes=1-2")).1.contentRange = some "bytes 1-2/4" ∧
    (handleStream (some vidTest) userTest fsFour (some "bytes=1-2")).1.body
      = [20, 30] := by
  have h := c3_inbounds_206 vidTest userTest fsFour [10, 20, 30, 40]
    "bytes=1-2" 1 2 (Or.inl (by decide)) (by decide) (by decide) (by decide)
    (by decide) (by decide) (by decide) (by decide)
  refine ⟨h.1, ?_, ?_⟩
  · rw [h.2.1]
    decide
  · rw [h.2.2.2.2.2.1]
    decide

/-- C4: a stream request without a `Range` header answers 200 with
`Content-Length` equal to the on-disk length, `Content-Type` equal to the
video's MIME type, and the entire file as body, for any length. -/
theorem c4_full_200 (v : VideoRec) (u : UserRec)
    (fsys : String → Option (List Nat)) (content : List Nat)
    (hauth : u.id ∈ v.enrolledStudents ∨ u.role = "admin")
    (hfs : fsys v.filePath = some content)
    (hmt : ¬ v.mimeType = "") :
    (handleStream (some v) u fsys none).1.status = 200 ∧
    (handleStream (some v) u fsys none).1.contentLength =
      some (content.length : Int) ∧
    (handleStream (some v) u fsys none).1.contentType = some v.mimeType ∧
    (handleStream (some v) u fsys none).1.body = content := by
  rw [handleStream_found_none v u fsys content hauth hfs]
  refine ⟨rfl, rfl, ?_, rfl⟩
  show some (contentTypeOf v.mimeType) = some v.mimeType
  simp [contentTypeOf, hmt]

/-- C4 witness: the theorem applied to a four-byte file, and to the empty
file for the `L = 0` case. -/
theorem c4_full_200_witness :
    (handleStream (some vidTest) userTest fsFour none).1.status = 200 ∧
    (handleStream (some vidTest) userTest fsFour none).1.body
      = [10, 20, 30, 40] ∧
    (handleStream (some vidTest) userTest fsEmpty none).1.status = 200 ∧
    (handleStream (some vidTest) userTest fsEmpty none).1.body = [] := by
  have h1 := c4_full_200 vidTest userTest fsFour [10, 20, 30, 40]
    (Or.inl (by decide)) (by decide) (by decide)
  have h2 := c4_full_200 vidTest userTest fsEmpty []
    (Or.inl (by decide)) (by decide) (by decide)
  exact ⟨h1.1, h1.2.2.2, h2.1, h2.2.2.2⟩

/-- C7: an unresolvable video id gives 404 with no bytes and no view
increment; so does a resolvable record (for an authorized caller) whose
backing path is absent from the filesystem — the on-disk check is made on
the current filesystem state, not on any stored length. -/
theorem c7_not_found (lookup : Option VideoRec) (u : UserRec)
    (fsys : String → Option (List Nat)) (range : Option String) :
    (lookup = none →
      (handleStream lookup u fsys range).1.status = 404 ∧
      (handleStream lookup u fsys range).1.body = [] ∧
      (handleStream lookup u fsys range).2 = 0) ∧
    (∀ v : VideoRec, lookup = some v →
      (u.id ∈ v.enrolledStudents ∨ u.role = "admin") →
      fsys v.filePath = none →
      (handleStream lookup u fsys range).1.status = 404 ∧
      (handleStream lookup u fsys range).1.body = [] ∧
      (handleStream lookup u fsys range).2 = 0) := by
  constructor
  · intro h
    subst h
    exact ⟨rfl, rfl, rfl⟩
  · intro v hv hauth hf
    subst hv
    have hc : ¬ (¬ u.id ∈ v.enrolledStudents ∧ ¬ u.role = "admin") := by
      tauto
    have hred : handleStream (some v) u fsys range = (notFoundResp, 0) := by
      simp only [handleStream, hf]
      rw [if_neg hc]
    rw [hred]
    exact ⟨rfl, rfl, rfl⟩

/-- C7 witness: the theorem applied to a missing record and to a record
whose file is not on disk. -/
theorem c7_not_found_witness :
    (handleStream none userTest fsFour none).1.status = 404 ∧
    (handleStream (some vidTest) userTest fsNone none).1.status = 404 ∧
    (handleStream (some vidTest) userTest fsNone none).2 = 0 := by
  have h1 := (c7_not_found none userTest fsFour none).1 rfl
  have h2 := (c7_not_found (some vidTest) userTest fsNone none).2 vidTest rfl
    (Or.inl (by decide)) (by decide)
  exact ⟨h1.1, h2.1, h2.2.2⟩

/-- C8: the view counter is incremented exactly once when and only when a
stream starts (status 200 or 206), and never on an error response (404,
403, or 416 — the last never occurs). The `$inc` is dispatched without
`await` in the source; the model records only how many increments are
dispatched per request. -/
theorem c8_view_increment (lookup : Option VideoRec) (u : UserRec)
    (fsys : String → Option (List Nat)) (range : Option String) :
    (((handleStream lookup u fsys range).1.status = 200 ∨
      (handleStream lookup u fsys range).1.status = 206) ↔
      (handleStream lookup u fsys range).2 = 1) ∧
    ((handleStream lookup u fsys range).1.status = 404 ∨
     (handleStream lookup u fsys range).1.status = 403 ∨
     (handleStream lookup u fsys range).1.status = 416 →
     (handleStream lookup u fsys range).2 = 0) := by
  rcases handleStream_cases lookup u fsys range with
    h | h | h | ⟨h1, h2⟩ | ⟨h1, h2⟩
  · rw [h]
    simp [notFoundResp]
  · rw [h]
    simp [forbiddenResp]
  · rw [h]
    simp [serverErrorResp]
  · constructor
    · exact ⟨fun _ => h2, fun _ => Or.inl h1⟩
    · intro hr
      rcases hr with hr | hr | hr <;> omega
  · constructor
    · exact ⟨fun _ => h2, fun _ => Or.inr h1⟩
    · intro hr
      rcases hr with hr | hr | hr <;> omega

/-- C8 witness: one increment on a successful 200, none on a 403. -/
theorem c8_view_increment_witness :
    (handleStream (some vidTest) userTest fsFour none).2 = 1 ∧
    (handleStream (some vidTest) userOther fsFour none).2 = 0 := by
  constructor
  · exact (c8_view_increment (some vidTest) userTest fsFour none).1.mp
      (Or.inl (by decide))
  · exact (c8_view_increment (some vidTest) userOther fsFour none).2
      (Or.inr (Or.inl (by decide)))

/-- C9: when the resolved record's MIME type is empty, the `Content-Type`
header is `video/mp4` on every response that starts a stream, in both the
200 and the 206 branch. -/
theorem c9_mime_fallback (v : VideoRec) (u : UserRec)
    (fsys : String → Option (List Nat)) (content : List Nat)
    (range : Option String)
    (hmt : v.mimeType = "")
    (hauth : u.id ∈ v.enrolledStudents ∨ u.role = "admin")
    (hfs : fsys v.filePath = some content)
    (hok : (handleStream (some v) u fsys range).1.status = 200 ∨
           (handleStream (some v) u fsys range).1.status = 206) :
    (handleStream (some v) u fsys range).1.contentType
      = some "video/mp4" := by
  rcases range with _ | r
  · rw [handleStream_found_none v u fsys content hauth hfs]
    show some (contentTypeOf v.mimeType) = some "video/mp4"
    simp [contentTypeOf, hmt]
  · rw [handleStream_found_some v u fsys content r hauth hfs] at hok ⊢
    rcases hS : startOpt (rangeParts r) with _ | s
    · rw [rangeBranch_invalid content v.mimeType r (Or.inl hS)] at hok
      simp [serverErrorResp] at hok
    · rcases hE : endOpt (rangeParts r) (content.length : Int) with _ | e
      · rw [rangeBranch_invalid content v.mimeType r (Or.inr (Or.inl hE))]
          at hok
        simp [serverErrorResp] at hok
      · by_cases hv : 0 ≤ s ∧ 0 ≤ e ∧ s ≤ e
        · rw [rangeBranch_valid content v.mimeType r s e hS hE hv.1 hv.2.2]
          show some (contentTypeOf v.mimeType) = some "video/mp4"
          simp [contentTypeOf, hmt]
        · rw [rangeBranch_invalid content v.mimeType r
            (Or.inr (Or.inr ⟨s, e, hS, hE, hv⟩))] at hok
          simp [serverErrorResp] at hok

/-- C9 witness: the fallback observed on the 200 branch and on the 206
branch for a record with an empty MIME type. -/
theorem c9_mime_fallback_witness :
    (handleStream (some vidNoMime) userTest fsFour none).1.contentType
      = some "video/mp4" ∧
    (handleStream (some vidNoMime) userTest fsFour
      (some "bytes=0-1")).1.contentType = some "video/mp4" := by
  constructor
  · exact c9_mime_fallback vidNoMime userTest fsFour [10, 20, 30, 40] none
      rfl (Or.inl (by decide)) (by decide) (Or.inl (by decide))
  · exact c9_mime_fallback vidNoMime userTest fsFour [10, 20, 30, 40]
      (some "bytes=0-1") rfl (Or.inl (by decide)) (by decide)
      (Or.inr (by decide))

/-- C10: an authenticated user who is neither enrolled in the video's
course nor an admin receives 403, no file bytes, and no view increment. -/
theorem c10_unauthorized_403 (v : VideoRec) (u : UserRec)
    (fsys : String → Option (List Nat)) (range : Option String)
    (hne : ¬ u.id ∈ v.enrolledStudents)
    (hrole : ¬ u.role = "admin") :
    (handleStream (some v) u fsys range).1.status = 403 ∧
    (handleStream (some v) u fsys range).1.body = [] ∧
    (handleStream (some v) u fsys range).2 = 0 := by
  have hred : handleStream (some v) u fsys range = (forbiddenResp, 0) := by
    simp only [handleStream]
    rw [if_pos ⟨hne, hrole⟩]
  rw [hred]
  exact ⟨rfl, rfl, rfl⟩

/-- C10 witness: the theorem applied to a non-enrolled student. -/
theorem c10_unauthorized_403_witness :
    (handleStream (some vidTest) userOther fsFour none).1.status = 403 ∧
    (handleStream (some vidTest) userOther fsFour none).1.body = [] ∧
    (handleStream (some vidTest) userOther fsFour none).2 = 0 :=
  c10_unauthorized_403 vidTest userOther fsFour none (by decide) (by decide)

/-- C1 counterexample: the route never answers 416. With a four-byte file,
`bytes=4-9` (start ≥ length) yields 206, not 416; an unparsable start
(`bytes=abc-2`) and `start > end` (`bytes=3-1`) both yield 500, not 416. -/
theorem c1_counterexample :
    (handleStream (some vidTest) userTest fsFour
      (some "bytes=4-9")).1.status = 206 ∧
    ¬ (handleStream (some vidTest) userTest fsFour
      (some "bytes=4-9")).1.status = 416 ∧
    (handleStream (some vidTest) userTest fsFour
      (some "bytes=abc-2")).1.status = 500 ∧
    ¬ (handleStream (some vidTest) userTest fsFour
      (some "bytes=abc-2")).1.status = 416 ∧
    (handleStream (some vidTest) userTest fsFour
      (some "bytes=3-1")).1.status = 500 := by
  decide

/-- C1 amended: the route performs no range validation of its own. When
`start` is unparsable, `end` is present and unparsable, or the parsed pair
is rejected by `createReadStream` (negative values or `start > end`), the
`catch` block answers 500 with no bytes streamed and no view increment;
when `0 ≤ start ≤ end` but `start ≥ length`, the route answers 206 with
the nonsensical `Content-Range` computed from the raw values and streams
zero body bytes; a 416 status never occurs. -/
theorem c1_amended_behavior (v : VideoRec) (u : UserRec)
    (fsys : String → Option (List Nat)) (content : List Nat) (r : String)
    (hauth : u.id ∈ v.enrolledStudents ∨ u.role = "admin")
    (hfs : fsys v.filePath = some content) :
    ((startOpt (rangeParts r) = none ∨
      endOpt (rangeParts r) (content.length : Int) = none ∨
      (∃ s e, startOpt (rangeParts r) = some s ∧
        endOpt (rangeParts r) (content.length : Int) = some e ∧
        ¬ (0 ≤ s ∧ 0 ≤ e ∧ s ≤ e))) →
      (handleStream (some v) u fsys (some r)).1.status = 500 ∧
      (handleStream (some v) u fsys (some r)).1.body = [] ∧
      (handleStream (some v) u fsys (some r)).2 = 0) ∧
    (∀ s e, startOpt (rangeParts r) = some s →
      endOpt (rangeParts r) (content.length : Int) = some e →
      0 ≤ s → s ≤ e → (content.length : Int) ≤ s →
      (handleStream (some v) u fsys (some r)).1.status = 206 ∧
      (handleStream (some v) u fsys (some r)).1.body = [] ∧
      (handleStream (some v) u fsys (some r)).1.contentRange =
        some ("bytes " ++ toString s ++ "-" ++ toString e ++ "/" ++
          toString (content.length : Int))) ∧
    ¬ (handleStream (some v) u fsys (some r)).1.status = 416 := by
  refine ⟨?_, ?_, ?_⟩
  · intro h
    rw [handleStream_found_some v u fsys content r hauth hfs,
      rangeBranch_invalid content v.mimeType r h]
    exact ⟨rfl, rfl, rfl⟩
  · intro s e hS hE h0 hse hL
    rw [handleStream_found_some v u fsys content r hauth hfs,
      rangeBranch_valid content v.mimeType r s e hS hE h0 hse]
    refine ⟨rfl, ?_, rfl⟩
    show streamBytes content s e = []
    have hdrop : content.drop s.toNat = [] :=
      List.drop_eq_nil_of_le (by omega)
    simp [streamBytes, hdrop]
  · rcases handleStream_cases (some v) u fsys (some r) with
      h | h | h | ⟨h1, _⟩ | ⟨h1, _⟩
    · rw [h]
      decide
    · rw [h]
      decide
    · rw [h]
      decide
    · omega
    · omega

/-- C1 amended witness: the amended theorem applied to a four-byte file
with an unparsable start and with a start past end of file. -/
theorem c1_amended_behavior_witness :
    (handleStream (some vidTest) userTest fsFour
      (some "bytes=abc-2")).1.status = 500 ∧
    (handleStream (some vidTest) userTest fsFour
      (some "bytes=4-9")).1.status = 206 ∧
    (handleStream (some vidTest) userTest fsFour
      (some "bytes=4-9")).1.body = [] := by
  refine ⟨?_, ?_, ?_⟩
  · exact ((c1_amended_behavior vidTest userTest fsFour [10, 20, 30, 40]
      "bytes=abc-2" (Or.inl (by decide)) (by decide)).1
      (Or.inl (by decide))).1
  · exact ((c1_amended_behavior vidTest userTest fsFour [10, 20, 30, 40]
      "bytes=4-9" (Or.inl (by decide)) (by decide)).2.1 4 9 (by decide)
      (by decide) (by decide) (by decide) (by decide)).1
  · exact ((c1_amended_behavior vidTest userTest fsFour [10, 20, 30, 40]
      "bytes=4-9" (Or.inl (by decide)) (by decide)).2.1 4 9 (by decide)
      (by decide) (by decide) (by decide) (by decide)).2.1

/-- C2 counterexample: for the 100-byte file and `bytes=50-149` the route
answers 206 with the unclamped `Content-Range: bytes 50-149/100` and
`Content-Length: 100` (not the claimed `bytes 50-99/100` and `50`), while
only 50 bytes are streamed. -/
theorem c2_counterexample :
    (handleStream (some vidTest) userTest fsHundred
      (some "bytes=50-149")).1.status = 206 ∧
    (handleStream (some vidTest) userTest fsHundred
      (some "bytes=50-149")).1.contentRange = some "bytes 50-149/100" ∧
    ¬ (handleStream (some vidTest) userTest fsHundred
      (some "bytes=50-149")).1.contentRange = some "bytes 50-99/100" ∧
    (handleStream (some vidTest) userTest fsHundred
      (some "bytes=50-149")).1.contentLength = some 100 ∧
    ¬ (handleStream (some vidTest) userTest fsHundred
      (some "bytes=50-149")).1.contentLength = some 50 ∧
    (handleStream (some vidTest) userTest fsHundred
      (some "bytes=50-149")).1.body.length = 50 := by
  decide

/-- C2 amended: when `0 ≤ start < length ≤ end` the route does not clamp:
it answers 206 whose `Content-Range` and `Content-Length` headers are
computed from the raw `end`, while the streamed body is truncated at end
of file (it is exactly the tail from `start`), so the `Content-Length`
header strictly exceeds the number of bytes streamed. -/
theorem c2_amended_no_clamp (v : VideoRec) (u : UserRec)
    (fsys : String → Option (List Nat)) (content : List Nat) (r : String)
    (s e : Int)
    (hauth : u.id ∈ v.enrolledStudents ∨ u.role = "admin")
    (hfs : fsys v.filePath = some content)
    (hS : startOpt (rangeParts r) = some s)
    (hE : endOpt (rangeParts r) (content.length : Int) = some e)
    (h0 : 0 ≤ s) (hsL : s < (content.length : Int)) (hse : s ≤ e)
    (hover : (content.length : Int) - 1 < e) :
    (handleStream (some v) u fsys (some r)).1.status = 206 ∧
    (handleStream (some v) u fsys (some r)).1.contentRange =
      some ("bytes " ++ toString s ++ "-" ++ toString e ++ "/" ++
        toString (content.length : Int)) ∧
    (handleStream (some v) u fsys (some r)).1.contentLength =
      some (e - s + 1) ∧
    (handleStream (some v) u fsys (some r)).1.body =
      content.drop s.toNat ∧
    ((handleStream (some v) u fsys (some r)).1.body.length : Int) =
      (content.length : Int) - s ∧
    ((handleStream (some v) u fsys (some r)).1.body.length : Int) <
      e - s + 1 := by
  rw [handleStream_found_some v u fsys content r hauth hfs,
    rangeBranch_valid content v.mimeType r s e hS hE h0 hse]
  have hbody : streamBytes content s e = content.drop s.toNat := by
    apply List.take_of_length_le
    rw [List.length_drop]
    omega
  refine ⟨rfl, rfl, rfl, hbody, ?_, ?_⟩
  · show ((streamBytes content s e).length : Int) = (content.length : Int) - s
    rw [hbody, List.length_drop]
    omega
  · show ((streamBytes content s e).length : Int) < e - s + 1
    rw [hbody, List.length_drop]
    omega

/-- C2 amended witness: the amended theorem applied to the 100-byte file
and `bytes=50-149`. -/
theorem c2_amended_no_clamp_witness :
    (handleStream (some vidTest) userTest fsHundred
      (some "bytes=50-149")).1.status = 206 ∧
    (handleStream (some vidTest) userTest fsHundred
      (some "bytes=50-149")).1.body = (List.range 100).drop 50 := by
  have h := c2_amended_no_clamp vidTest userTest fsHundred (List.range 100)
    "bytes=50-149" 50 149 (Or.inl (by decide)) (by decide) (by decide)
    (by decide) (by decide) (by decide) (by decide) (by decide)
  exact ⟨h.1, h.2.2.2.1⟩

/-- C5 counterexample: on a zero-length file the range request
`bytes=0-0` yields 206 (with an empty body), not the claimed 416; the
request `bytes=0-` yields 500 (since `end` resolves to `-1` and
`createReadStream` throws), not 416. -/
theorem c5_counterexample :
    (handleStream (some vidTest) userTest fsEmpty
      (some "bytes=0-0")).1.status = 206 ∧
    ¬ (handleStream (some vidTest) userTest fsEmpty
      (some "bytes=0-0")).1.status = 416 ∧
    (handleStream (some vidTest) userTest fsEmpty
      (some "bytes=0-")).1.status = 500 ∧
    ¬ (handleStream (some vidTest) userTest fsEmpty
      (some "bytes=0-")).1.status = 416 := by
  decide

/-- C5 amended: on a zero-length file no range request yields 416, and no
file bytes are ever streamed: each request ends in 500 (when the parsed
options make `createReadStream` throw — in particular whenever `end` is
omitted, since it then resolves to `fileSize - 1 = -1`) or in 206 with an
empty body. -/
theorem c5_amended_empty_file (v : VideoRec) (u : UserRec)
    (fsys : String → Option (List Nat)) (r : String)
    (hauth : u.id ∈ v.enrolledStudents ∨ u.role = "admin")
    (hfs : fsys v.filePath = some ([] : List Nat)) :
    (handleStream (some v) u fsys (some r)).1.body = [] ∧
    ¬ (handleStream (some v) u fsys (some r)).1.status = 416 ∧
    ((handleStream (some v) u fsys (some r)).1.status = 206 ∨
     (handleStream (some v) u fsys (some r)).1.status = 500) := by
  rw [handleStream_found_some v u fsys [] r hauth hfs]
  rcases hS : startOpt (rangeParts r) with _ | s
  · rw [rangeBranch_invalid [] v.mimeType r (Or.inl hS)]
    exact ⟨rfl, by decide, Or.inr rfl⟩
  · rcases hE : endOpt (rangeParts r) (([] : List Nat).length : Int)
      with _ | e
    · rw [rangeBranch_invalid [] v.mimeType r (Or.inr (Or.inl hE))]
      exact ⟨rfl, by decide, Or.inr rfl⟩
    · by_cases hv : 0 ≤ s ∧ 0 ≤ e ∧ s ≤ e
      · rw [rangeBranch_valid [] v.mimeType r s e hS hE hv.1 hv.2.2]
        refine ⟨?_, by simp, Or.inl rfl⟩
        show streamBytes [] s e = []
        simp [streamBytes]
      · rw [rangeBranch_invalid [] v.mimeType r
          (Or.inr (Or.inr ⟨s, e, hS, hE, hv⟩))]
        exact ⟨rfl, by decide, Or.inr rfl⟩

/-- C5 amended witness: the amended theorem applied to the empty file and
header `bytes=0-0`. -/
theorem c5_amended_empty_file_witness :
    (handleStream (some vidTest) userTest fsEmpty
      (some "bytes=0-0")).1.body = [] ∧
    ¬ (handleStream (some vidTest) userTest fsEmpty
      (some "bytes=0-0")).1.status = 416 := by
  have h := c5_amended_empty_file vidTest userTest fsEmpty "bytes=0-0"
    (Or.inl (by decide)) (by decide)
  exact ⟨h.1, h.2.1⟩

/-- Concatenating the in-bounds slices of an ordered tiling of
`[s, length-1]` recovers the tail of the file from `s`. -/
theorem join_slices (content : List Nat) (ranges : List (Nat × Nat)) :
    ∀ s : Nat, coversFrom s content.length ranges = true →
      (ranges.map fun p => (content.drop p.1).take (p.2 - p.1 + 1)).flatten =
        content.drop s := by
  induction ranges with
  | nil =>
    intro s h
    simp only [coversFrom, beq_iff_eq] at h
    subst h
    simp [List.drop_length]
  | cons p tl ih =>
    intro s h
    obtain ⟨a, b⟩ := p
    simp only [coversFrom, Bool.and_eq_true, beq_iff_eq,
      decide_eq_true_eq] at h
    obtain ⟨⟨⟨ha, hsb⟩, hbL⟩, hcov⟩ := h
    subst ha
    show (content.drop a).take (b - a + 1) ++
      (tl.map fun p => (content.drop p.1).take (p.2 - p.1 + 1)).flatten =
      content.drop a
    rw [ih (b + 1) hcov]
    have hdd : content.drop (b + 1) = (content.drop a).drop (b - a + 1) := by
      rw [List.drop_drop]
      congr 1
      omega
    rw [hdd, List.take_append_drop]

/-- For an authorized request on an existing file, the body of each range
request of an ordered tiling is the corresponding slice of the file. -/
theorem bodies_eq_slices (v : VideoRec) (u : UserRec)
    (fsys : String → Option (List Nat)) (content : List Nat)
    (hauth : u.id ∈ v.enrolledStudents ∨ u.role = "admin")
    (hfs : fsys v.filePath = some content)
    (headers : List String) (ranges : List (Nat × Nat))
    (hpar : List.Forall₂ (fun (h : String) (p : Nat × Nat) =>
      startOpt (rangeParts h) = some (p.1 : Int) ∧
      endOpt (rangeParts h) (content.length : Int) = some (p.2 : Int))
      headers ranges) :
    ∀ s : Nat, coversFrom s content.length ranges = true →
      headers.map (fun h => (handleStream (some v) u fsys (some h)).1.body) =
        ranges.map (fun p => (content.drop p.1).take (p.2 - p.1 + 1)) := by
  induction hpar with
  | nil =>
    intro s _
    rfl
  | cons h1 h2 ih =>
    rename_i hd pr tlh tlr
    intro s hcov
    obtain ⟨a, b⟩ := pr
    simp only [coversFrom, Bool.and_eq_true, beq_iff_eq,
      decide_eq_true_eq] at hcov
    obtain ⟨⟨⟨ha, hsb⟩, hbL⟩, hcov'⟩ := hcov
    subst ha
    simp only [List.map_cons]
    congr 1
    · rw [handleStream_found_some v u fsys content hd hauth hfs,
        rangeBranch_valid content v.mimeType hd (a : Int) (b : Int)
          h1.1 h1.2 (by omega) (by omega)]
      show streamBytes content (a : Int) (b : Int) =
        (content.drop a).take (b - a + 1)
      simp only [streamBytes, Int.toNat_natCast]
    · exact ih (b + 1) hcov'

/-- C6: for every file and every sequence of range requests whose parsed
ranges tile `[0, length-1]` in order, concatenating the streamed bodies in
that order reconstructs exactly the original file bytes. -/
theorem c6_roundtrip (v : VideoRec) (u : UserRec)
    (fsys : String → Option (List Nat)) (content : List Nat)
    (headers : List String) (ranges : List (Nat × Nat))
    (hauth : u.id ∈ v.enrolledStudents ∨ u.role = "admin")
    (hfs : fsys v.filePath = some content)
    (hpar : List.Forall₂ (fun (h : String) (p : Nat × Nat) =>
      startOpt (rangeParts h) = some (p.1 : Int) ∧
      endOpt (rangeParts h) (content.length : Int) = some (p.2 : Int))
      headers ranges)
    (hcov : coversFrom 0 content.length ranges = true) :
    (headers.map fun h =>
      (handleStream (some v) u fsys (some h)).1.body).flatten = content := by
  rw [bodies_eq_slices v u fsys content hauth hfs headers ranges hpar 0 hcov,
    join_slices content ranges 0 hcov]
  exact List.drop_zero content

/-- C6 witness: two adjacent range requests over a four-byte file
reassemble it. -/
theorem c6_roundtrip_witness :
    ((["bytes=0-1", "bytes=2-3"] : List String).map fun h =>
      (handleStream (some vidTest) userTest fsFour (some h)).1.body).flatten =
      [10, 20, 30, 40] :=
  c6_roundtrip vidTest userTest fsFour [10, 20, 30, 40]
    ["bytes=0-1", "bytes=2-3"] [(0, 1), (2, 3)]
    (Or.inl (by decide)) (by decide)
    (List.Forall₂.cons ⟨by decide, by decide⟩
      (List.Forall₂.cons ⟨by decide, by decide⟩ List.Forall₂.nil))
    (by decide)
